import Mathlib

/-!
# Verification of the snake game engine (`snake/game.py`)

A shallow embedding of the simulation engine in `src/snake/game.py`:
the `_Snake` state machine, the `SnakeGame` engine (construction, apple
placement, per-tick stepping, the step-wise run loop and the direction
queueing command), together with proofs of the specification's claims
about them.

Conventions of the embedding:
* A board position or a velocity is a pair of integers (`Int × Int`);
  the snake can walk off the board, so coordinates may go negative.
* Python's `deque` holding the body is a `List Pos`, index `0` the tail
  (Python index `0`) and the last element the head (Python index `-1`).
* Python exceptions are the explicit `PyErr` error values of an
  `Except`-valued function; in-place mutation is explicit state passing.
* `frozenset` is `Finset`.
-/

abbrev Pos := Int × Int

/-- The Python exceptions the embedded code can raise. -/
inductive PyErr where
  /-- e.g. `len()` applied to an object without `__len__`. -/
  | typeError
  /-- attribute lookup failed on an object. -/
  | attributeError
  /-- a local variable is read before any assignment to it ran. -/
  | unboundLocalError
  /-- e.g. `random.Random.randint(a, b)` with an empty range `b < a`. -/
  | valueError
  deriving DecidableEq, Repr

/-- State of `_Snake` (`game.py` lines 13-27): the body deque (tail first,
head last), the current velocity and the deque of queued velocities
(front of the list is dequeued first). -/
structure Snake where
  body : List Pos
  velocity : Int × Int
  velocityQueue : List (Int × Int)
  deriving DecidableEq, Repr

/-- `_Snake.__init__` (lines 19-27): single-segment body at the origin,
moving right, nothing queued. -/
def Snake.init : Snake where
  body := [(0, 0)]
  velocity := (1, 0)
  velocityQueue := []

/-- A Python generator object over positions: it holds the items not yet
consumed. `_Snake.get_body` (lines 29-40) is a generator function, so a
call to it returns one of these, not a list. -/
structure PyGen where
  items : List Pos
  deriving DecidableEq, Repr

/-- `_Snake.get_body()` (lines 29-40): returns a generator that will yield
the body segments tail to head. -/
def Snake.get_body (s : Snake) : PyGen := ⟨s.body⟩

/-- Python `len(g)` for a generator `g`: generators define no `__len__`,
so `len` raises `TypeError` whatever the generator holds. -/
def PyGen.pyLen (_g : PyGen) : Except PyErr Nat := .error .typeError

/-- `_Snake._is_valid_velocity` (lines 63-93): `velocities = frozenset
{velocity, self._velocity}` must not be one of the two invalid unordered
pairs (up/down or left/right), and `velocity` must be one of the four
unit vectors.  A two-element `frozenset` equals `{(0,1), (0,-1)}` exactly
when one element is `(0,1)` and the other `(0,-1)` (a singleton, arising
when `velocity == self._velocity`, never equals a doubleton). -/
def Snake.isValidVelocity (s : Snake) (velocity : Int × Int) : Bool :=
  let cur := s.velocity
  let velocitiesInInvalid :=
    (velocity == (0, 1) && cur == (0, -1)) ||
    (velocity == (0, -1) && cur == (0, 1)) ||
    (velocity == (1, 0) && cur == (-1, 0)) ||
    (velocity == (-1, 0) && cur == (1, 0))
  let velocityInValid :=
    velocity == (0, 1) || velocity == (0, -1) ||
    velocity == (1, 0) || velocity == (-1, 0)
  !velocitiesInInvalid && velocityInValid

/-- Lines 52-55 of `_Snake.take_step`: if the velocity queue is nonempty,
pop its front; it becomes the current velocity iff `_is_valid_velocity`
accepts it, and is dropped either way. -/
def Snake.popVelocity (s : Snake) : Snake :=
  match s.velocityQueue with
  | [] => s
  | newVelocity :: rest =>
    if s.isValidVelocity newVelocity then
      { s with velocity := newVelocity, velocityQueue := rest }
    else
      { s with velocityQueue := rest }

/-- `_Snake.take_step` (lines 42-61): resolve at most one queued velocity
(lines 52-55), then append `head + velocity` as the new head and pop the
tail (lines 57-61).  `self._body[-1]` is the last element; the body is
never empty on any reachable state, so the `getLastD` default is never
read. -/
def Snake.takeStep (s : Snake) : Snake :=
  let s1 := s.popVelocity
  let head := s1.body.getLastD (0, 0)
  let newHead := (head.1 + s1.velocity.1, head.2 + s1.velocity.2)
  { s1 with body := (s1.body ++ [newHead]).tail }

/-- `_Snake.hit(walls)` (lines 95-118): some body segment lies in the wall
set. -/
def Snake.hit (s : Snake) (walls : Finset Pos) : Bool :=
  s.body.any (fun piece => decide (piece ∈ walls))

/-- `_Snake.bite()` (lines 120-135): the body holds a duplicate position,
detected by comparing `len(set(body))` with `len(body)`. -/
def Snake.bite (s : Snake) : Bool :=
  s.body.dedup.length != s.body.length

/-- `_Snake.is_escaped(board_size)` (lines 137-166): some coordinate of
the body's bounding box falls outside `[0, board_x) × [0, board_y)`.
Python's `min`/`max` raise on an empty body, which is unreachable; the
`getD 0` defaults are never read. -/
def Snake.isEscaped (s : Snake) (boardSize : Int × Int) : Bool :=
  let min_x := (s.body.map Prod.fst).min?.getD 0
  let max_x := (s.body.map Prod.fst).max?.getD 0
  let min_y := (s.body.map Prod.snd).min?.getD 0
  let max_y := (s.body.map Prod.snd).max?.getD 0
  decide (min_x < 0) || decide (min_y < 0) ||
  decide (max_x ≥ boardSize.1) || decide (max_y ≥ boardSize.2)

/-- `_Snake.eat(apple)` (lines 168-195): if the head equals the apple,
append `head + velocity` as a new head (the tail is not trimmed) and
report `True`; otherwise leave the snake alone and report `False`. -/
def Snake.eat (s : Snake) (apple : Pos) : Bool × Snake :=
  let head := s.body.getLastD (0, 0)
  let ate := head == apple
  if ate then
    let newHead := (head.1 + s.velocity.1, head.2 + s.velocity.2)
    (ate, { s with body := s.body ++ [newHead] })
  else
    (ate, s)

/-- `_Snake.queue_velocity` (lines 197-212): unconditionally append to the
velocity queue. -/
def Snake.queueVelocity (s : Snake) (velocity : Int × Int) : Snake :=
  { s with velocityQueue := s.velocityQueue ++ [velocity] }

/-- `_Snake.get_num_queued_velocities` (lines 214-225). -/
def Snake.getNumQueuedVelocities (s : Snake) : Nat :=
  s.velocityQueue.length

/-- State of `random.Random(seed)`: the seed and the number of draws made
so far. -/
structure Rng where
  seed : Int
  draws : Nat
  deriving DecidableEq, Repr

/-- Model of `random.Random.randint(a, b)`, an inclusive-range draw.
CPython's Mersenne Twister is standard-library code outside this
repository; the embedding keeps exactly what the claims use: the draw is
a pure function of the generator state (seed and number of prior draws),
it lies in `[a, b]` when `a ≤ b`, and an empty range `b < a` raises
`ValueError`. -/
def Rng.randint (r : Rng) (a b : Int) : Except PyErr (Int × Rng) :=
  if b < a then .error .valueError
  else .ok (a + (r.seed + r.draws) % (b - a + 1), ⟨r.seed, r.draws + 1⟩)

/-- `itertools.product(range(0, board_x), range(0, board_y))`
(`game.py` lines 342-345): every board cell, `x` varying outermost. -/
def boardPositions (board_x board_y : Int) : List Pos :=
  (List.range board_x.toNat).flatMap fun x =>
    (List.range board_y.toNat).map fun y => ((x : Int), (y : Int))

/-- `SnakeGame._get_new_apple` (lines 329-363), taking the attributes it
reads as arguments since it runs during `__init__` before the game object
is complete.  Faithful to the source: `snake_body` is the *generator*
returned by `get_body()` (line 340); `valid_positions` (lines 346-349) is
a lazy generator expression, consumed only by the final `for` loop; line
355 evaluates `len(snake_body)`, which raises `TypeError` because
generators have no length — so on every input the function stops there,
and everything after the `pyLen` bind is dead code (translated under the
straightforward reading of the remaining lines). -/
def getNewApple (boardSize : Int × Int) (snake : Snake) (walls : Finset Pos)
    (generator : Rng) : Except PyErr (Pos × Rng) := do
  let snake_body := snake.get_body
  let board_x := boardSize.1
  let board_y := boardSize.2
  let valid_positions :=
    (boardPositions board_x board_y).filter fun pos =>
      !(snake_body.items.contains pos) && !(decide (pos ∈ walls))
  let board_size := board_x * board_y
  -- max_index = board_size - len(self._walls) - len(snake_body) - 1
  let nBody ← snake_body.pyLen
  let max_index := board_size - (walls.card : Int) - (nBody : Int) - 1
  let (index, generator2) ← generator.randint 0 max_index
  -- for i, position in enumerate(valid_positions): if i == index: return position
  match valid_positions.get? index.toNat with
  | some position => .ok (position, generator2)
  | none => .error .valueError  -- Python would fall off and return None; unreachable

/-- State of a `SnakeGame` (lines 303-327): board size, the snake, the
wall `frozenset`, the random generator and the apple position. -/
structure GameState where
  boardSize : Int × Int
  snake : Snake
  walls : Finset Pos
  generator : Rng
  apple : Pos
  deriving DecidableEq

/-- `SnakeGame.__init__(board_size, walls, random_seed)` (lines 303-327):
seed the generator, create the initial snake, freeze the walls, then
place the first apple with `_get_new_apple` — whose `TypeError` (see
`getNewApple`) propagates, so no game object is ever produced. -/
def mkSnakeGame (board_size : Int × Int) (walls : List Pos) (random_seed : Int) :
    Except PyErr GameState := do
  let generator : Rng := ⟨random_seed, 0⟩
  let snake := Snake.init
  let wallsSet := walls.toFinset
  let (apple, generator2) ← getNewApple board_size snake wallsSet generator
  return { boardSize := board_size, snake := snake, walls := wallsSet
           generator := generator2, apple := apple }

/-- `SnakeGame._take_step` (lines 365-377): advance the snake, then try
to eat the apple; on a successful eat line 377 evaluates
`self._generate_new_apple` — an attribute that exists nowhere (the method
is named `_get_new_apple`), so the lookup raises `AttributeError` after
the snake has already advanced and grown.  The returned state carries all
mutations performed before the exception. -/
def GameState.takeStep (g : GameState) : GameState × Option PyErr :=
  let snake1 := g.snake.takeStep
  let (ate, snake2) := snake1.eat g.apple
  if ate then
    ({ g with snake := snake2 }, some .attributeError)
  else
    ({ g with snake := snake2 }, none)

/-- The shared `while` condition of `SnakeGame.run` (lines 389-393) and
`SnakeGame.run_stepwise` (lines 408-412), negated: the game is over when
the snake has hit a wall, bitten itself or escaped the board. -/
def gameOver (g : GameState) : Bool :=
  g.snake.hit g.walls || g.snake.bite || g.snake.isEscaped g.boardSize

/-- How a fuelled run stopped: the loop guard ended it, an exception
aborted it, or the fuel ran out with the loop still live. -/
inductive RunStop where
  | ended
  | errored (e : PyErr)
  | fuelOut
  deriving DecidableEq, Repr

/-- `SnakeGame.run_stepwise` (lines 396-415) with `step_number` passed
explicitly and bounded by `fuel`: while the guard allows, perform one
`_take_step` and yield the incremented step number; an exception inside
`_take_step` aborts the generator, yielding nothing for that attempt but
keeping its mutations. -/
def runStepwiseAux : Nat → Nat → GameState → List Nat × GameState × RunStop
  | 0, _, g => ([], g, .fuelOut)
  | fuel + 1, step_number, g =>
    if gameOver g then ([], g, .ended)
    else
      match g.takeStep with
      | (g2, some e) => ([], g2, .errored e)
      | (g2, none) =>
        let r := runStepwiseAux fuel (step_number + 1) g2
        ((step_number + 1) :: r.1, r.2)

/-- `SnakeGame.run_stepwise` started the way Python does, with
`step_number = 0`. -/
def runStepwise (fuel : Nat) (g : GameState) : List Nat × GameState × RunStop :=
  runStepwiseAux fuel 0 g

/-- The pre-states of the ticks a fuelled `run_stepwise` completes: a tick
counts only if the guard let it start and `_take_step` finished without
an exception. -/
def tickTrace : Nat → GameState → List GameState
  | 0, _ => []
  | fuel + 1, g =>
    if gameOver g then []
    else
      match g.takeStep with
      | (_, some _) => []
      | (g2, none) => g :: tickTrace fuel g2

/-- The `if/elif` chain of `SnakeGame.queue_snake_movement_direction`
(lines 461-468): the velocity the direction string assigns to the local
`velocity`, or `none` when no branch runs and the local stays
unassigned. -/
def directionVelocity (direction : String) : Option (Int × Int) :=
  if direction = "up" then some (0, 1)
  else if direction = "down" then some (0, -1)
  else if direction = "right" then some (1, 0)
  else if direction = "left" then some (-1, 0)
  else none

/-- `SnakeGame.queue_snake_movement_direction` (lines 438-474): run the
`if/elif` chain (`directionVelocity`), then, if fewer than 5 velocities
are queued, enqueue `velocity` — reading it raises `UnboundLocalError`
when no branch of the chain assigned it — and return `True`; otherwise
return `False` without ever reading `velocity`. -/
def GameState.queueSnakeMovementDirection (g : GameState) (direction : String) :
    Except PyErr (Bool × GameState) :=
  let velocity? := directionVelocity direction
  if g.snake.getNumQueuedVelocities < 5 then
    match velocity? with
    | some velocity =>
      .ok (true, { g with snake := g.snake.queueVelocity velocity })
    | none => .error .unboundLocalError
  else
    .ok (false, g)

/-- Queue a list of directions one call after another, with no tick in
between; an exception in one call aborts the sequence. -/
def GameState.queueAll (g : GameState) (ds : List String) :
    Except PyErr (List Bool × GameState) :=
  match ds with
  | [] => .ok ([], g)
  | d :: rest => do
    let (ok, g2) ← g.queueSnakeMovementDirection d
    let (oks, g3) ← g2.queueAll rest
    return (ok :: oks, g3)

/-- One round of the documented driver loop
`for step_number in game.run_stepwise(): apply_action(game)`, driven by a
schedule: after the tick that produced step `step_number + 1` the driver
queues the directions scheduled for that step, one
`queue_snake_movement_direction` call each; an exception anywhere stops
the run.  The produced items record each yielded step number together
with the engine state the driver observes at that yield. -/
def runDriven : Nat → Nat → GameState → List (List String) →
    List (Nat × GameState) × GameState × RunStop
  | 0, _, g, _ => ([], g, .fuelOut)
  | fuel + 1, step_number, g, schedule =>
    if gameOver g then ([], g, .ended)
    else
      match g.takeStep with
      | (g2, some e) => ([], g2, .errored e)
      | (g2, none) =>
        match g2.queueAll (schedule.headD []) with
        | .error e => ([(step_number + 1, g2)], g2, .errored e)
        | .ok (_, g3) =>
          let r := runDriven fuel (step_number + 1) g3 schedule.tail
          ((step_number + 1, g2) :: r.1, r.2)

/-- The four unit direction vectors (spec §3, "Direction"). -/
def unitDirs : List (Int × Int) := [(0, 1), (0, -1), (1, 0), (-1, 0)]

/-- Spec §4.1: `b` is the exact opposite of `a` — one of the four
opposite pairs up/down, down/up, left/right, right/left. -/
def oppositeDir (a b : Int × Int) : Prop :=
  (a = (0, 1) ∧ b = (0, -1)) ∨ (a = (0, -1) ∧ b = (0, 1)) ∨
  (a = (1, 0) ∧ b = (-1, 0)) ∨ (a = (-1, 0) ∧ b = (1, 0))

instance (a b : Int × Int) : Decidable (oppositeDir a b) := by
  unfold oppositeDir; infer_instance

theorem Snake.popVelocity_body (s : Snake) : s.popVelocity.body = s.body := by
  obtain ⟨b, v, q⟩ := s
  cases q with
  | nil => rfl
  | cons a t =>
    simp only [Snake.popVelocity]
    split <;> rfl

theorem Snake.popVelocity_velocityQueue (s : Snake) :
    s.popVelocity.velocityQueue = s.velocityQueue.tail := by
  obtain ⟨b, v, q⟩ := s
  cases q with
  | nil => rfl
  | cons a t =>
    simp only [Snake.popVelocity]
    split <;> rfl

theorem Snake.takeStep_eq (s : Snake) :
    s.takeStep =
      { s.popVelocity with
        body := (s.popVelocity.body ++
          [((s.popVelocity.body.getLastD (0, 0)).1 + s.popVelocity.velocity.1,
            (s.popVelocity.body.getLastD (0, 0)).2 + s.popVelocity.velocity.2)]).tail } :=
  rfl

/-- C4: `take_step` dequeues at most one pending direction (the queue
loses exactly its front element), then appends the old head plus the
resolved velocity as the new head and removes the oldest tail segment,
leaving the body length unchanged; it is a total function with no error
path. -/
theorem c4_advance_step (s : Snake) (h : s.body ≠ []) :
    s.takeStep.body =
      s.body.tail ++
        [((s.body.getLastD (0, 0)).1 + s.popVelocity.velocity.1,
          (s.body.getLastD (0, 0)).2 + s.popVelocity.velocity.2)]
  ∧ s.takeStep.body.length = s.body.length
  ∧ s.takeStep.velocity = s.popVelocity.velocity
  ∧ s.takeStep.velocityQueue = s.velocityQueue.tail := by
  have hb := s.popVelocity_body
  have hq := s.popVelocity_velocityQueue
  have h1 : s.takeStep.body =
      s.body.tail ++
        [((s.body.getLastD (0, 0)).1 + s.popVelocity.velocity.1,
          (s.body.getLastD (0, 0)).2 + s.popVelocity.velocity.2)] := by
    rw [Snake.takeStep_eq]
    simp only [hb]
    exact List.tail_append_of_ne_nil h
  refine ⟨h1, ?_, ?_, ?_⟩
  · rw [h1]
    simp only [List.length_append, List.length_tail, List.length_cons,
      List.length_nil]
    have : 1 ≤ s.body.length := List.length_pos.mpr h
    omega
  · rw [Snake.takeStep_eq]
  · rw [Snake.takeStep_eq]
    exact hq

/-- Witness for C4 at a two-segment snake with one queued direction. -/
theorem c4_advance_step_witness :
    (Snake.takeStep ⟨[(0, 0), (1, 0)], (1, 0), [(0, 1)]⟩).body =
      [(1, 0), (1, 1)] := by
  have h := c4_advance_step ⟨[(0, 0), (1, 0)], (1, 0), [(0, 1)]⟩ (by decide)
  rw [h.1]
  rfl

/-- C5: a candidate direction dequeued during a step becomes the new
current direction exactly when it is not the exact opposite of the
current one; an opposite candidate is dropped (not re-queued) and the
direction is unchanged, while any other unit direction — repetition
included — is adopted. -/
theorem c5_reversal_rejection (s : Snake) (cand : Int × Int)
    (rest : List (Int × Int)) (hcur : s.velocity ∈ unitDirs)
    (hcand : cand ∈ unitDirs) (hq : s.velocityQueue = cand :: rest) :
    (s.popVelocity.velocity = cand ↔ ¬ oppositeDir cand s.velocity)
  ∧ (oppositeDir cand s.velocity → s.popVelocity.velocity = s.velocity)
  ∧ s.popVelocity.velocityQueue = rest
  ∧ s.popVelocity.body = s.body := by
  obtain ⟨b, v, q⟩ := s
  simp only at hcur hq ⊢
  subst hq
  simp only [unitDirs, List.mem_cons, List.not_mem_nil, or_false] at hcur hcand
  rcases hcur with h | h | h | h <;> subst h <;>
    rcases hcand with h | h | h | h <;> subst h <;>
      refine ⟨?_, ?_, ?_, ?_⟩ <;>
        simp +decide [Snake.popVelocity, Snake.isValidVelocity, oppositeDir]

/-- Witness for C5: with the snake moving right, a queued `left` is
discarded and the velocity stays `(1, 0)`. -/
theorem c5_reversal_rejection_witness :
    (Snake.popVelocity ⟨[(0, 0)], (1, 0), [(-1, 0)]⟩).velocity = (1, 0) := by
  have h := c5_reversal_rejection ⟨[(0, 0)], (1, 0), [(-1, 0)]⟩ (-1, 0) []
    (by decide) (by decide) rfl
  exact h.2.1 (by decide)

/-- C7: `eat` succeeds exactly when the head equals the food position;
on success it appends one new head one step beyond the old head in the
current direction, growing the body by one with the tail untouched; on
failure the snake is completely unchanged. -/
theorem c7_eat_spec (s : Snake) (apple : Pos) (h : s.body ≠ []) :
    s.body.getLastD (0, 0) = s.body.getLast h
  ∧ ((s.eat apple).1 = true ↔ s.body.getLastD (0, 0) = apple)
  ∧ ((s.eat apple).1 = true →
       (s.eat apple).2.body =
         s.body ++ [((s.body.getLastD (0, 0)).1 + s.velocity.1,
                     (s.body.getLastD (0, 0)).2 + s.velocity.2)]
     ∧ (s.eat apple).2.body.length = s.body.length + 1
     ∧ (s.eat apple).2.velocity = s.velocity
     ∧ (s.eat apple).2.velocityQueue = s.velocityQueue)
  ∧ ((s.eat apple).1 = false → (s.eat apple).2 = s) := by
  have hgl : s.body.getLastD (0, 0) = s.body.getLast h := by
    rw [List.getLastD_eq_getLast?, List.getLast?_eq_getLast _ h]
    rfl
  have hfst : (s.eat apple).1 = (s.body.getLastD (0, 0) == apple) := by
    simp only [Snake.eat]
    split <;> rfl
  have hpos : (s.body.getLastD (0, 0) == apple) = true →
      (s.eat apple).2 =
        { s with body := s.body ++
            [((s.body.getLastD (0, 0)).1 + s.velocity.1,
              (s.body.getLastD (0, 0)).2 + s.velocity.2)] } := by
    intro hb
    simp only [Snake.eat]
    rw [if_pos hb]
  have hneg : (s.body.getLastD (0, 0) == apple) = false →
      (s.eat apple).2 = s := by
    intro hb
    simp only [Snake.eat]
    rw [if_neg (by rw [hb]; simp)]
  refine ⟨hgl, by rw [hfst, beq_iff_eq], fun ht => ?_, fun hf => ?_⟩
  · have hb : (s.body.getLastD (0, 0) == apple) = true := by rw [← hfst]; exact ht
    rw [hpos hb]
    refine ⟨rfl, ?_, rfl, rfl⟩
    simp
  · exact hneg (by rw [← hfst]; exact hf)

/-- Witness for C7 at a snake whose head sits on the apple. -/
theorem c7_eat_spec_witness :
    (Snake.eat ⟨[(2, 3)], (0, 1), []⟩ (2, 3)).2.body = [(2, 3), (2, 4)] := by
  have h := c7_eat_spec ⟨[(2, 3)], (0, 1), []⟩ (2, 3) (by decide)
  rw [(h.2.2.1 (by decide)).1]
  rfl

/-- C1: contrary to the claim, the food-placement routine never returns a
position: on every input — free cells available or not — line 355's
`len(snake_body)` applies `len()` to the generator returned by
`get_body()` and raises `TypeError` before the random index is drawn or
any cell is enumerated. -/
theorem c1_place_food_raises (boardSize : Int × Int) (snake : Snake)
    (walls : Finset Pos) (generator : Rng) :
    getNewApple boardSize snake walls generator = .error .typeError := rfl

/-- C2: contrary to the claim, constructing the engine never succeeds:
`__init__` calls `_get_new_apple`, whose `TypeError` (see
`c1_place_food_raises`'s subject, `getNewApple`) propagates for every
configuration, valid ones included. -/
theorem c2_construction_raises (board_size : Int × Int) (walls : List Pos)
    (random_seed : Int) :
    mkSnakeGame board_size walls random_seed = .error .typeError := rfl

theorem GameState.takeStep_unfold (g : GameState) :
    g.takeStep =
      ({ g with snake := (g.snake.takeStep.eat g.apple).2 },
       if (g.snake.takeStep.eat g.apple).1 then some PyErr.attributeError
       else none) := by
  simp only [GameState.takeStep]
  rcases he : g.snake.takeStep.eat g.apple with ⟨ate, snake2⟩
  cases ate <;> simp

theorem Snake.eat_fst (s : Snake) (apple : Pos) :
    (s.eat apple).1 = (s.body.getLastD (0, 0) == apple) := by
  simp only [Snake.eat]
  split <;> rfl

/-- C3: when the advanced snake's head reaches the food, the body does
grow by one, but the tick does not complete: line 377 reads
`self._generate_new_apple`, an attribute that exists nowhere (the method
is `_get_new_apple`), so the engine raises `AttributeError` instead of
placing new food; a non-eating tick completes without error. -/
theorem c3_eating_tick_raises (g : GameState) :
    (g.snake.takeStep.body.getLastD (0, 0) = g.apple →
        g.takeStep = ({ g with snake := (g.snake.takeStep.eat g.apple).2 },
                      some PyErr.attributeError)
      ∧ g.takeStep.1.snake.body.length = g.snake.takeStep.body.length + 1)
  ∧ (g.snake.takeStep.body.getLastD (0, 0) ≠ g.apple →
        g.takeStep = ({ g with snake := g.snake.takeStep }, none)) := by
  constructor
  · intro he
    have hb : (g.snake.takeStep.eat g.apple).1 = true := by
      rw [Snake.eat_fst, beq_iff_eq]
      exact he
    have h2 : (g.snake.takeStep.eat g.apple).2 =
        { g.snake.takeStep with body := g.snake.takeStep.body ++
            [((g.snake.takeStep.body.getLastD (0, 0)).1 + g.snake.takeStep.velocity.1,
              (g.snake.takeStep.body.getLastD (0, 0)).2 + g.snake.takeStep.velocity.2)] } := by
      simp only [Snake.eat]
      rw [if_pos (by rw [beq_iff_eq]; exact he)]
    constructor
    · rw [GameState.takeStep_unfold, hb]
      simp
    · rw [GameState.takeStep_unfold]
      simp only [h2, List.length_append, List.length_cons, List.length_nil]
  · intro he
    have hb : (g.snake.takeStep.eat g.apple).1 = false := by
      rw [Snake.eat_fst, beq_eq_false_iff_ne]
      exact he
    have h2 : (g.snake.takeStep.eat g.apple).2 = g.snake.takeStep := by
      simp only [Snake.eat]
      rw [if_neg (by rw [beq_iff_eq]; exact he)]
    rw [GameState.takeStep_unfold, hb, h2]
    simp

/-- Witness for C3: a fresh snake one step left of the apple advances
onto it and the tick aborts with `AttributeError`. -/
theorem c3_eating_tick_raises_witness :
    (GameState.takeStep ⟨(5, 5), Snake.init, ∅, ⟨0, 0⟩, (1, 0)⟩).2 =
      some PyErr.attributeError := by
  have h := (c3_eating_tick_raises ⟨(5, 5), Snake.init, ∅, ⟨0, 0⟩, (1, 0)⟩).1
    (by decide)
  rw [h.1]

theorem queueDirection_eq (g : GameState) (d : String) (v : Int × Int)
    (hd : directionVelocity d = some v) :
    g.queueSnakeMovementDirection d =
      .ok (decide (g.snake.getNumQueuedVelocities < 5),
           if g.snake.getNumQueuedVelocities < 5 then
             { g with snake := g.snake.queueVelocity v }
           else g) := by
  unfold GameState.queueSnakeMovementDirection
  rw [hd]
  by_cases h5 : g.snake.getNumQueuedVelocities < 5 <;> simp [h5]

/-- C6: with a direction string among up/down/right/left, each enqueue
returns `True` and appends exactly when fewer than 5 velocities are
pending, and `False` leaving the state untouched otherwise — never an
exception; six consecutive enqueues from an empty queue yield five
successes then one failure, with exactly 5 entries queued. -/
theorem c6_queue_cap (g : GameState) (d : String) (v : Int × Int)
    (hd : directionVelocity d = some v) :
    g.queueSnakeMovementDirection d =
      .ok (decide (g.snake.getNumQueuedVelocities < 5),
           if g.snake.getNumQueuedVelocities < 5 then
             { g with snake := g.snake.queueVelocity v }
           else g)
  ∧ (g.snake.velocityQueue = [] →
       g.queueAll [d, d, d, d, d, d] =
         .ok ([true, true, true, true, true, false],
              { g with snake :=
                  { g.snake with velocityQueue := [v, v, v, v, v] } })) := by
  refine ⟨queueDirection_eq g d v hd, fun hq => ?_⟩
  obtain ⟨bs, ⟨b, vel, q⟩, w, r, a⟩ := g
  simp only at hq
  subst hq
  simp [GameState.queueAll, queueDirection_eq _ _ _ hd,
    Snake.getNumQueuedVelocities, Snake.queueVelocity]
  rfl

/-- Witness for C6: six `up` commands on a fresh queue. -/
theorem c6_queue_cap_witness :
    GameState.queueAll ⟨(9, 9), Snake.init, ∅, ⟨3, 0⟩, (2, 2)⟩
        ["up", "up", "up", "up", "up", "up"] =
      .ok ([true, true, true, true, true, false],
           ⟨(9, 9), ⟨[(0, 0)], (1, 0), [(0, 1), (0, 1), (0, 1), (0, 1), (0, 1)]⟩,
            ∅, ⟨3, 0⟩, (2, 2)⟩) := by
  have h := (c6_queue_cap ⟨(9, 9), Snake.init, ∅, ⟨3, 0⟩, (2, 2)⟩ "up" (0, 1)
    rfl).2 rfl
  exact h

/-- C10: for a direction string outside the four commands, the enqueue
raises `UnboundLocalError` whenever the queue holds fewer than 5 entries
(the local `velocity` is read before assignment), and only with a full
queue does it return `False` with the state untouched; for the four
valid strings no exception is reachable. -/
theorem c10_invalid_direction (g : GameState) (d : String) :
    (directionVelocity d = none → g.snake.getNumQueuedVelocities < 5 →
        g.queueSnakeMovementDirection d = .error .unboundLocalError)
  ∧ (directionVelocity d = none → 5 ≤ g.snake.getNumQueuedVelocities →
        g.queueSnakeMovementDirection d = .ok (false, g))
  ∧ (∀ v, directionVelocity d = some v → ∀ e,
        g.queueSnakeMovementDirection d ≠ .error e) := by
  refine ⟨fun hd h5 => ?_, fun hd h5 => ?_, fun v hd e => ?_⟩
  · unfold GameState.queueSnakeMovementDirection
    rw [hd]
    simp [h5]
  · unfold GameState.queueSnakeMovementDirection
    rw [hd]
    simp [Nat.not_lt.mpr h5]
  · rw [queueDirection_eq g d v hd]
    simp

/-- Witness for C10: an unknown direction string with an empty queue
raises, a known one does not. -/
theorem c10_invalid_direction_witness :
    GameState.queueSnakeMovementDirection
        ⟨(9, 9), Snake.init, ∅, ⟨3, 0⟩, (2, 2)⟩ "upward" =
      .error .unboundLocalError ∧
    ∀ e, GameState.queueSnakeMovementDirection
        ⟨(9, 9), Snake.init, ∅, ⟨3, 0⟩, (2, 2)⟩ "down" ≠ .error e := by
  constructor
  · exact (c10_invalid_direction ⟨(9, 9), Snake.init, ∅, ⟨3, 0⟩, (2, 2)⟩
      "upward").1 rfl (by decide)
  · exact fun e => (c10_invalid_direction ⟨(9, 9), Snake.init, ∅, ⟨3, 0⟩, (2, 2)⟩
      "down").2.2 (0, -1) rfl e

theorem runStepwiseAux_yields :
    ∀ (fuel n : Nat) (g : GameState),
      (runStepwiseAux fuel n g).1 =
        List.range' (n + 1) (tickTrace fuel g).length := by
  intro fuel
  induction fuel with
  | zero => intro n g; rfl
  | succ fuel ih =>
    intro n g
    cases hgo : gameOver g with
    | true => simp [runStepwiseAux, tickTrace, hgo]
    | false =>
      rcases hts : g.takeStep with ⟨g2, e?⟩
      cases e? with
      | some e => simp [runStepwiseAux, tickTrace, hgo, hts]
      | none => simp [runStepwiseAux, tickTrace, hgo, hts, ih, List.range'_succ]

theorem runStepwiseAux_state :
    ∀ (fuel n m : Nat) (g : GameState),
      (runStepwiseAux fuel n g).2 = (runStepwiseAux fuel m g).2 := by
  intro fuel
  induction fuel with
  | zero => intro n m g; rfl
  | succ fuel ih =>
    intro n m g
    cases hgo : gameOver g with
    | true => simp [runStepwiseAux, hgo]
    | false =>
      rcases hts : g.takeStep with ⟨g2, e?⟩
      cases e? with
      | some e => simp [runStepwiseAux, hgo, hts]
      | none => simp [runStepwiseAux, hgo, hts, ih (n + 1) (m + 1) g2]

theorem tickTrace_notOver :
    ∀ (fuel : Nat) (g s : GameState),
      s ∈ tickTrace fuel g → gameOver s = false := by
  intro fuel
  induction fuel with
  | zero => intro g s hs; simp [tickTrace] at hs
  | succ fuel ih =>
    intro g s hs
    cases hgo : gameOver g with
    | true => simp [tickTrace, hgo] at hs
    | false =>
      rcases hts : g.takeStep with ⟨g2, e?⟩
      cases e? with
      | some e => simp [tickTrace, hgo, hts] at hs
      | none =>
        simp [tickTrace, hgo, hts] at hs
        rcases hs with rfl | hs
        · exact hgo
        · exact ih g2 s hs

theorem tickTrace_head :
    ∀ (fuel : Nat) (g s : GameState),
      (tickTrace fuel g).head? = some s → s = g := by
  intro fuel g s h
  cases fuel with
  | zero => simp [tickTrace] at h
  | succ fuel =>
    cases hgo : gameOver g with
    | true => simp [tickTrace, hgo] at h
    | false =>
      rcases hts : g.takeStep with ⟨g2, e?⟩
      cases e? with
      | some e => simp [tickTrace, hgo, hts] at h
      | none =>
        simp [tickTrace, hgo, hts] at h
        exact h.symm

theorem tickTrace_chain :
    ∀ (fuel : Nat) (g : GameState) (i : Nat) (s s' : GameState),
      (tickTrace fuel g)[i]? = some s →
      (tickTrace fuel g)[i + 1]? = some s' →
      s.takeStep = (s', none) := by
  intro fuel
  induction fuel with
  | zero => intro g i s s' h1 h2; simp [tickTrace] at h1
  | succ fuel ih =>
    intro g i s s' h1 h2
    cases hgo : gameOver g with
    | true => simp [tickTrace, hgo] at h1
    | false =>
      rcases hts : g.takeStep with ⟨g2, e?⟩
      cases e? with
      | some e => simp [tickTrace, hgo, hts] at h1
      | none =>
        simp [tickTrace, hgo, hts] at h1 h2
        cases i with
        | zero =>
          have hs : s = g := by simpa using h1.symm
          have hs' : s' = g2 := by
            apply tickTrace_head fuel g2
            rw [List.head?_eq_getElem?]
            simpa using h2
          rw [hs, hs']
          exact hts
        | succ i =>
          exact ih g2 i s s' (by simpa using h1) (by simpa using h2)

theorem runStepwiseAux_ended_over :
    ∀ (fuel n : Nat) (g : GameState),
      (runStepwiseAux fuel n g).2.2 = RunStop.ended →
      gameOver (runStepwiseAux fuel n g).2.1 = true := by
  intro fuel
  induction fuel with
  | zero => intro n g h; simp [runStepwiseAux] at h
  | succ fuel ih =>
    intro n g h
    cases hgo : gameOver g with
    | true => simp [runStepwiseAux, hgo]
    | false =>
      rcases hts : g.takeStep with ⟨g2, e?⟩
      cases e? with
      | some e => simp [runStepwiseAux, hgo, hts] at h
      | none =>
        simp only [runStepwiseAux, hgo] at h ⊢
        simp only [Bool.false_eq_true, if_false] at h ⊢
        rw [hts] at h ⊢
        exact ih (n + 1) g2 (by simpa using h)

theorem runStepwise_of_over (fuel : Nat) (g : GameState)
    (h : gameOver g = true) :
    runStepwise (fuel + 1) g = ([], g, RunStop.ended) := by
  simp [runStepwise, runStepwiseAux, h]

/-- C8: the step-wise run checks the termination guard on the current
body before every tick; if it holds the run stops at that very state —
no mutation, no item — and a stopped-as-`ended` run restarted from its
final state again does nothing; otherwise each produced item follows
exactly one completed tick, items are the consecutive 1-based step
counters, every completed tick starts from a non-terminal state, and
consecutive trace states are linked by exactly one error-free
`_take_step`. -/
theorem c8_stepwise_loop (fuel : Nat) (g : GameState) :
    (runStepwise fuel g).1 = List.range' 1 (tickTrace fuel g).length
  ∧ (∀ s, s ∈ tickTrace fuel g → gameOver s = false)
  ∧ (∀ i s s', (tickTrace fuel g)[i]? = some s →
       (tickTrace fuel g)[i + 1]? = some s' → s.takeStep = (s', none))
  ∧ (gameOver g = true →
       (runStepwise fuel g).1 = [] ∧ (runStepwise fuel g).2.1 = g
     ∧ (0 < fuel → (runStepwise fuel g).2.2 = RunStop.ended))
  ∧ ((runStepwise fuel g).2.2 = RunStop.ended →
       gameOver (runStepwise fuel g).2.1 = true
     ∧ ∀ fuel2, 0 < fuel2 →
         runStepwise fuel2 ((runStepwise fuel g).2.1) =
           ([], (runStepwise fuel g).2.1, RunStop.ended)) := by
  refine ⟨runStepwiseAux_yields fuel 0 g, fun s hs => tickTrace_notOver fuel g s hs,
    fun i s s' h1 h2 => tickTrace_chain fuel g i s s' h1 h2, fun hover => ?_, fun hend => ?_⟩
  · cases fuel with
    | zero => exact ⟨rfl, rfl, fun hf => absurd hf (by simp)⟩
    | succ fuel =>
      rw [runStepwise_of_over fuel g hover]
      exact ⟨rfl, rfl, fun _ => rfl⟩
  · have hover := runStepwiseAux_ended_over fuel 0 g hend
    refine ⟨hover, fun fuel2 hf => ?_⟩
    cases fuel2 with
    | zero => exact absurd hf (by simp)
    | succ fuel2 => exact runStepwise_of_over fuel2 _ hover

/-- Witness for C8: a run that escapes a 2-wide board after two ticks
ends with the guard true at its final state, and a run started at an
already-escaped state produces no items and no mutation. -/
theorem c8_stepwise_loop_witness :
    gameOver (runStepwise 10 ⟨(2, 1), Snake.init, ∅, ⟨0, 0⟩, (5, 5)⟩).2.1 = true
  ∧ (runStepwise 7 ⟨(2, 1), ⟨[(2, 0)], (1, 0), []⟩, ∅, ⟨0, 0⟩, (5, 5)⟩).1 = []
  ∧ (runStepwise 7 ⟨(2, 1), ⟨[(2, 0)], (1, 0), []⟩, ∅, ⟨0, 0⟩, (5, 5)⟩).2.1 =
      ⟨(2, 1), ⟨[(2, 0)], (1, 0), []⟩, ∅, ⟨0, 0⟩, (5, 5)⟩ := by
  have h1 := (c8_stepwise_loop 10 ⟨(2, 1), Snake.init, ∅, ⟨0, 0⟩, (5, 5)⟩).2.2.2.2
    (by decide)
  have h2 := (c8_stepwise_loop 7
    ⟨(2, 1), ⟨[(2, 0)], (1, 0), []⟩, ∅, ⟨0, 0⟩, (5, 5)⟩).2.2.2.1 (by decide)
  exact ⟨h1.1, h2.1, h2.2.1⟩

/-- C9: two engines given identical board size, walls and seed, and
driven by identical direction schedules, are indistinguishable — the
construction results coincide, and the driven step-wise runs from equal
states produce the same items, final state and stop reason, since every
engine operation in the embedding is a pure function of the
configuration and the schedule (the generator draws depend only on the
seed and the number of prior draws). -/
theorem c9_determinism (board1 board2 : Int × Int) (walls1 walls2 : List Pos)
    (seed1 seed2 : Int) (sched1 sched2 : List (List String))
    (g1 g2 : GameState) (fuel : Nat)
    (hb : board1 = board2) (hw : walls1 = walls2) (hs : seed1 = seed2)
    (hsch : sched1 = sched2) (hg : g1 = g2) :
    mkSnakeGame board1 walls1 seed1 = mkSnakeGame board2 walls2 seed2
  ∧ runDriven fuel 0 g1 sched1 = runDriven fuel 0 g2 sched2 := by
  subst hb
  subst hw
  subst hs
  subst hsch
  subst hg
  exact ⟨rfl, rfl⟩

/-- Witness for C9 at a concrete configuration and schedule. -/
theorem c9_determinism_witness :
    mkSnakeGame (4, 4) [(2, 2)] 11 = mkSnakeGame (4, 4) [(2, 2)] 11
  ∧ runDriven 6 0 ⟨(4, 4), Snake.init, ∅, ⟨11, 0⟩, (3, 0)⟩ [["up"], ["left"]] =
      runDriven 6 0 ⟨(4, 4), Snake.init, ∅, ⟨11, 0⟩, (3, 0)⟩ [["up"], ["left"]] :=
  c9_determinism (4, 4) (4, 4) [(2, 2)] [(2, 2)] 11 11 [["up"], ["left"]]
    [["up"], ["left"]] ⟨(4, 4), Snake.init, ∅, ⟨11, 0⟩, (3, 0)⟩
    ⟨(4, 4), Snake.init, ∅, ⟨11, 0⟩, (3, 0)⟩ 6 rfl rfl rfl rfl rfl
